import Mathlib

/-!
AsyncResultDO — shallow embedding and verification.

Embedding of `src/unnamed/part_011` (`AsyncResultDO`, a Cloudflare Durable
Object implementing the store → poll → acknowledge → auto-cleanup pattern).

Modelling decisions, each traceable to the source:

* The durable-object storage is touched only at the keys `"status"`,
  `"result"` and `"storedAt"` (plus the single alarm slot), so the state is a
  record with one `Option` field per key; `none` models an absent key
  (a `get` of an absent key yields `undefined` in the source).
* Timestamps (`Date.now()`, `new Date().toISOString()`) are modelled as a
  `Nat` parameter `now` passed to each operation; the ISO rendering of the
  store time is abstracted to the time value itself, since no claim inspects
  the string format.
* `setAlarm` can fail in the source and is wrapped in try/catch; the model
  takes a Boolean `alarmFails` per call: when true the alarm slot is left
  unchanged (the thrown error is swallowed by the catch block).
* `request.json()` can reject on a malformed body; `store` therefore takes an
  `Option JSON` body, `none` modelling an unparseable body, and returns
  `Except String _` whose `error` case is the rejected promise.
* In `fetch`, each operation is returned as `return this.store(request)`
  (resp. `retrieve` / `acknowledge`) *without* `await` inside the
  `try` block.  Under ECMAScript semantics the `try` block completes as soon
  as the promise value is returned; the promise is adopted, and rejects,
  only after control has left the `try`, so the `catch` clause never observes
  an operation failure (nothing inside the `switch` throws synchronously).
  The embedding of `fetch` therefore propagates operation errors as
  `Except.error` instead of producing the 500 response of the catch block.
* Alarm firing is one atomic step: the runtime consumes the scheduled alarm
  and runs `alarm()`, which calls `storage.deleteAll()`.
-/

/-- JSON values, the payloads accepted by `store` (numbers as `Int`; no claim
depends on the numeric representation). -/
inductive JSON where
  | null : JSON
  | bool (b : Bool) : JSON
  | num (n : Int) : JSON
  | str (s : String) : JSON
  | arr (elems : List JSON) : JSON
  | obj (fields : List (String × JSON)) : JSON
deriving Repr

/-- HTTP responses produced by the actor: `text` for `new Response(body,
\x7bstatus\x7d)`, `json` for `Response.json(body, \x7bstatus\x7d)` (the default
status of `Response.json` is 200). -/
inductive Response where
  | text (code : Nat) (body : String) : Response
  | json (code : Nat) (body : JSON) : Response
deriving Repr

/-- The durable storage of one `AsyncResultDO` instance: the three storage
keys the class ever writes, plus the single alarm slot. -/
structure Storage where
  status : Option String
  result : Option JSON
  storedAt : Option Nat
  alarm : Option Nat
deriving Repr

/-- A fresh instance: no key was ever written, no alarm scheduled. -/
def Storage.init : Storage :=
  { status := none, result := none, storedAt := none, alarm := none }

/-- Embedding of `store(request)`: parse the body; `storage.put(\x7bresult, status: "ready",
storedAt\x7d)`; try `setAlarm(now + 24h)` swallowing failure; reply
`201 "stored"`.  A body that fails to parse rejects before anything is
written. -/
def store (body : Option JSON) (now : Nat) (alarmFails : Bool)
    (s : Storage) : Except String (Response × Storage) :=
  match body with
  | none => Except.error "SyntaxError: Unexpected token in JSON"
  | some data =>
      Except.ok (Response.text 201 "stored",
        { status := some "ready"
          result := some data
          storedAt := some now
          alarm := if alarmFails then s.alarm else some (now + 24 * 60 * 60 * 1000) })

/-- Serialize an optional field the way `JSON.stringify` does: a field whose
value is `undefined` is dropped from the object. -/
def optField (k : String) (v : Option JSON) : List (String × JSON) :=
  match v with
  | none => []
  | some j => [(k, j)]

/-- Embedding of `retrieve()`: read `"status"`; `"deleted"` ⇒ 404 tombstone message;
anything other than `"ready"` (including an absent key) ⇒ 202 pending;
otherwise read `"result"` and `"storedAt"` and reply 200 ready.  Performs
only reads, so the storage is returned unchanged. -/
def retrieve (s : Storage) : Response × Storage :=
  if s.status = some "deleted" then
    (Response.json 404 (JSON.obj [("message", JSON.str "Result deleted")]), s)
  else if s.status ≠ some "ready" then
    (Response.json 202 (JSON.obj [("status", JSON.str "pending")]), s)
  else
    (Response.json 200 (JSON.obj
      ([("status", JSON.str "ready")]
        ++ optField "result" s.result
        ++ optField "storedAt" (s.storedAt.map JSON.num))), s)

/-- Embedding of `acknowledge()`: `put("status", "deleted")`; `delete(["result",
"storedAt"])`; try `setAlarm(now + 1h)` swallowing failure; reply
`200 "deleted"`.  It never reads the prior state. -/
def acknowledge (now : Nat) (alarmFails : Bool) (s : Storage) :
    Response × Storage :=
  (Response.text 200 "deleted",
    { status := some "deleted"
      result := none
      storedAt := none
      alarm := if alarmFails then s.alarm else some (now + 60 * 60 * 1000) })

/-- The timer firing: the runtime consumes the scheduled alarm and runs the
`alarm()` handler, which calls `storage.deleteAll()`, wiping every key. -/
def alarmFire (_ : Storage) : Storage :=
  { status := none, result := none, storedAt := none, alarm := none }

/-- Request methods reaching `fetch`. -/
inductive Method where
  | put : Method
  | get : Method
  | delete : Method
  | other : Method
deriving Repr, DecidableEq

/-- Embedding of `fetch(request)`: dispatch on the verb.  The `try`/`catch` around the
`switch` cannot intercept a rejected operation promise, because each case
returns the promise without `await` (see the module comment), so an
operation failure leaves `fetch` as `Except.error` rather than the 500
response of the catch clause. -/
def fetchDO (m : Method) (body : Option JSON) (now : Nat) (alarmFails : Bool)
    (s : Storage) : Except String (Response × Storage) :=
  match m with
  | Method.put => store body now alarmFails s
  | Method.get => Except.ok (retrieve s)
  | Method.delete => Except.ok (acknowledge now alarmFails s)
  | Method.other => Except.ok (Response.text 405 "Method not allowed", s)

/-- One step of the actor's lifecycle, as seen by the storage (responses
dropped).  `opStore` is a store whose body parsed; a store whose body fails
to parse writes nothing, so it is the identity on storage and needs no
constructor. -/
inductive Op where
  | opStore (data : JSON) (now : Nat) (alarmFails : Bool) : Op
  | opPoll : Op
  | opAck (now : Nat) (alarmFails : Bool) : Op
  | opTimerFire : Op

/-- Effect of one operation on the storage. -/
def applyOp (s : Storage) : Op → Storage
  | Op.opStore data now alarmFails =>
      match store (some data) now alarmFails s with
      | Except.ok rs => rs.2
      | Except.error _ => s
  | Op.opPoll => (retrieve s).2
  | Op.opAck now alarmFails => (acknowledge now alarmFails s).2
  | Op.opTimerFire => alarmFire s

/-- Run a sequence of operations from a starting storage state. -/
def runOps (s : Storage) : List Op → Storage
  | [] => s
  | o :: os => runOps (applyOp s o) os

/-- Whether an operation is a (successfully parsed) `store`. -/
def Op.isStore : Op → Bool
  | Op.opStore _ _ _ => true
  | _ => false

/-- Whether an operation is an `acknowledge`. -/
def Op.isAck : Op → Bool
  | Op.opAck _ _ => true
  | _ => false

/-- Whether an operation is a timer firing. -/
def Op.isTimerFire : Op → Bool
  | Op.opTimerFire => true
  | _ => false

/-- The 202 pending response of `retrieve`. -/
def pendingResponse : Response :=
  Response.json 202 (JSON.obj [("status", JSON.str "pending")])

/-- The 404 tombstone response of `retrieve`. -/
def deletedResponse : Response :=
  Response.json 404 (JSON.obj [("message", JSON.str "Result deleted")])

/-- The 200 ready response of `retrieve` for payload `p` stored at `t`. -/
def readyResponse (p : JSON) (t : Nat) : Response :=
  Response.json 200 (JSON.obj
    [("status", JSON.str "ready"), ("result", p), ("storedAt", JSON.num t)])

/-- C1: storing any payload `p` at time `t` from any prior state succeeds,
and an immediate poll returns the ready response carrying exactly `p` and a
storedAt equal to the timestamp the store call wrote, which is no earlier
than the store-call time `t`. -/
theorem C1_store_then_poll_ready (p : JSON) (s : Storage) (t : Nat)
    (af : Bool) (r : Response) (s' : Storage)
    (h : store (some p) t af s = Except.ok (r, s')) :
    (retrieve s').1 = readyResponse p t ∧
      ∃ u, s'.storedAt = some u ∧ t ≤ u := by
  simp only [store, Except.ok.injEq, Prod.mk.injEq] at h
  obtain ⟨hr, hs⟩ := h
  subst hs
  refine ⟨?_, t, rfl, Nat.le_refl t⟩
  simp [retrieve, readyResponse, optField, Option.map]

/-- Witness for C1 at a concrete payload and state. -/
theorem C1_store_then_poll_ready_witness :
    (retrieve (Storage.mk (some "ready") (some (JSON.num 7)) (some 5)
        (some 86400005))).1 = readyResponse (JSON.num 7) 5 ∧
      ∃ u, (Storage.mk (some "ready") (some (JSON.num 7)) (some 5)
        (some 86400005)).storedAt = some u ∧ 5 ≤ u :=
  C1_store_then_poll_ready (JSON.num 7) Storage.init 5 false
    (Response.text 201 "stored")
    (Storage.mk (some "ready") (some (JSON.num 7)) (some 5) (some 86400005))
    rfl

/-- Polling (`retrieve`) performs only storage reads, so it leaves the storage exactly
as it found it (every branch returns `s` unchanged). -/
theorem retrieve_snd_eq (s : Storage) : (retrieve s).2 = s := by
  unfold retrieve
  split
  · rfl
  · split <;> rfl

/-- Once the tombstone is written, any run of operations containing neither a
`store` nor a timer firing leaves `"status"` equal to `"deleted"`. -/
theorem status_deleted_preserved (s : Storage) (ops : List Op)
    (hs : s.status = some "deleted")
    (hops : ∀ o ∈ ops, o.isStore = false ∧ o.isTimerFire = false) :
    (runOps s ops).status = some "deleted" := by
  induction ops generalizing s with
  | nil => exact hs
  | cons o os ih =>
    have ho := hops o (List.mem_cons_self o os)
    have hos : ∀ o2 ∈ os, o2.isStore = false ∧ o2.isTimerFire = false :=
      fun o2 h2 => hops o2 (List.mem_cons_of_mem o h2)
    cases o with
    | opStore d n a => simp [Op.isStore] at ho
    | opPoll =>
        exact ih ((retrieve s).2) (by rw [retrieve_snd_eq]; exact hs) hos
    | opAck n a => exact ih _ rfl hos
    | opTimerFire => simp [Op.isTimerFire] at ho

/-- While no `store` and no `acknowledge` happens, the `"status"` key stays
absent: polls do not write, and the alarm handler only deletes. -/
theorem status_none_preserved (s : Storage) (ops : List Op)
    (hs : s.status = none)
    (hops : ∀ o ∈ ops, o.isStore = false ∧ o.isAck = false) :
    (runOps s ops).status = none := by
  induction ops generalizing s with
  | nil => exact hs
  | cons o os ih =>
    have ho := hops o (List.mem_cons_self o os)
    have hos : ∀ o2 ∈ os, o2.isStore = false ∧ o2.isAck = false :=
      fun o2 h2 => hops o2 (List.mem_cons_of_mem o h2)
    cases o with
    | opStore d n a => simp [Op.isStore] at ho
    | opPoll =>
        exact ih ((retrieve s).2) (by rw [retrieve_snd_eq]; exact hs) hos
    | opAck n a => simp [Op.isAck] at ho
    | opTimerFire => exact ih _ rfl hos

/-- C2: an unexpected internal failure of an operation (here: `store` on a
request body that is not valid JSON, so `request.json()` rejects) escapes the
`fetch` entry point of the actor as an error instead of being mapped to the
HTTP 500 response of the catch clause: the operation promise is returned
from the `try` block without `await`, so its rejection bypasses the
`catch`. -/
theorem C2_internal_error_escapes_fetch :
    fetchDO Method.put none 0 false Storage.init =
      Except.error "SyntaxError: Unexpected token in JSON" := rfl

/-- C3: after `acknowledge` on a record whose status is `"ready"`, every
later poll, before the purge timer fires and with no intervening store,
returns the 404 not-found response with message "Result deleted". -/
theorem C3_tombstone_visible (s : Storage) (t : Nat) (af : Bool)
    (ops : List Op)
    (_hready : s.status = some "ready")
    (hops : ∀ o ∈ ops, o.isStore = false ∧ o.isTimerFire = false) :
    (retrieve (runOps (acknowledge t af s).2 ops)).1 = deletedResponse := by
  have h1 : (acknowledge t af s).2.status = some "deleted" := rfl
  have h2 := status_deleted_preserved (acknowledge t af s).2 ops h1 hops
  simp [retrieve, deletedResponse, h2]

/-- Witness for C3: a ready record, acknowledged, then polled and
re-acknowledged before its purge timer fires. -/
theorem C3_tombstone_visible_witness :
    (retrieve (runOps
      (acknowledge 1 false
        (Storage.mk (some "ready") (some JSON.null) (some 0) none)).2
      [Op.opPoll, Op.opAck 2 true])).1 = deletedResponse :=
  C3_tombstone_visible
    (Storage.mk (some "ready") (some JSON.null) (some 0) none) 1 false
    [Op.opPoll, Op.opAck 2 true] rfl (by decide)

/-- C4 counterexample: the claim quantifies over all operation histories
without a `store`, acknowledge included; but acknowledging a never-stored
key writes the tombstone, and the next poll returns the 404 not-found
response, not the pending response. -/
theorem C4_counterexample :
    (∀ o ∈ [Op.opAck 0 false], o.isStore = false) ∧
    (retrieve (runOps Storage.init [Op.opAck 0 false])).1 = deletedResponse ∧
    deletedResponse ≠ pendingResponse := by
  refine ⟨by decide, rfl, ?_⟩
  intro h
  simp [deletedResponse, pendingResponse] at h

/-- C4 amended: for any key on which neither `store` nor `acknowledge` was
ever called, every poll returns the pending response, regardless of which
other operations (polls, timer fires) have run on that key. -/
theorem C4_never_stored_pending (ops : List Op)
    (hops : ∀ o ∈ ops, o.isStore = false ∧ o.isAck = false) :
    (retrieve (runOps Storage.init ops)).1 = pendingResponse := by
  have h := status_none_preserved Storage.init ops rfl hops
  simp [retrieve, pendingResponse, h]

/-- Witness for the amended C4: polls and timer fires only. -/
theorem C4_never_stored_pending_witness :
    (retrieve (runOps Storage.init [Op.opPoll, Op.opTimerFire, Op.opPoll])).1 =
      pendingResponse :=
  C4_never_stored_pending [Op.opPoll, Op.opTimerFire, Op.opPoll] (by decide)

/-- C5: when the timer fires, the alarm handler wipes every stored field
from any state, leaving exactly the fresh (absent) storage, so a poll after
the purge returns the pending response — the same response a never-stored
key yields. -/
theorem C5_alarm_restores_absence (s : Storage) :
    alarmFire s = Storage.init ∧
    (retrieve (alarmFire s)).1 = pendingResponse ∧
    (retrieve (alarmFire s)).1 = (retrieve Storage.init).1 :=
  ⟨rfl, rfl, rfl⟩

/-- C6: acknowledging twice in succession, from any starting state and at
any two times, yields the same observable response both times (always
`200 "deleted"`, never an error), and the second call leaves status, result
and storedAt exactly as the first call left them; only the alarm slot is
rescheduled. -/
theorem C6_ack_idempotent (s : Storage) (t1 t2 : Nat) (af1 af2 : Bool) :
    (acknowledge t2 af2 (acknowledge t1 af1 s).2).1 =
      (acknowledge t1 af1 s).1 ∧
    (acknowledge t1 af1 s).1 = Response.text 200 "deleted" ∧
    (acknowledge t2 af2 (acknowledge t1 af1 s).2).2.status =
      (acknowledge t1 af1 s).2.status ∧
    (acknowledge t2 af2 (acknowledge t1 af1 s).2).2.result =
      (acknowledge t1 af1 s).2.result ∧
    (acknowledge t2 af2 (acknowledge t1 af1 s).2).2.storedAt =
      (acknowledge t1 af1 s).2.storedAt := by
  refine ⟨?_, rfl, ?_, ?_, ?_⟩
  · show Response.text 200 "deleted" = Response.text 200 "deleted"
    rfl
  · show some "deleted" = some "deleted"
    rfl
  · show (none : Option JSON) = none
    rfl
  · show (none : Option Nat) = none
    rfl

/-- C7: when `setAlarm` fails (alarmFails = true), the failure is swallowed:
`store` still returns `201 "stored"`, the payload is written and a
subsequent poll retrieves it; likewise `acknowledge` still returns
`200 "deleted"` when its 1-hour alarm cannot be scheduled. -/
theorem C7_alarm_failure_swallowed (p : JSON) (s : Storage) (t : Nat) :
    store (some p) t true s =
      Except.ok (Response.text 201 "stored",
        Storage.mk (some "ready") (some p) (some t) s.alarm) ∧
    (retrieve (Storage.mk (some "ready") (some p) (some t) s.alarm)).1 =
      readyResponse p t ∧
    (acknowledge t true s).1 = Response.text 200 "deleted" := by
  refine ⟨rfl, ?_, rfl⟩
  simp [retrieve, readyResponse, optField, Option.map]

/-- C8: polling (`retrieve`) never mutates the storage — the record after a poll is
identical to the record before it — and a repeated poll from the resulting
state returns the identical response. -/
theorem C8_poll_pure (s : Storage) :
    (retrieve s).2 = s ∧
    (retrieve ((retrieve s).2)).1 = (retrieve s).1 := by
  have h := retrieve_snd_eq s
  exact ⟨h, by rw [h]⟩

/-- A storage state is reachable when some finite sequence of operations
leads to it from the fresh state. -/
def ReachableStorage (s : Storage) : Prop :=
  ∃ ops : List Op, runOps Storage.init ops = s

/-- The C9 invariant: the `"result"` key is populated exactly when
`"status"` is `"ready"`. -/
def payloadInv (s : Storage) : Prop :=
  s.result.isSome = true ↔ s.status = some "ready"

/-- Every single operation preserves the payload/status invariant. -/
theorem payloadInv_step (s : Storage) (o : Op) (h : payloadInv s) :
    payloadInv (applyOp s o) := by
  cases o with
  | opStore d n a => simp [payloadInv, applyOp, store]
  | opPoll => rw [applyOp, retrieve_snd_eq]; exact h
  | opAck n a => simp [payloadInv, applyOp, acknowledge]
  | opTimerFire => simp [payloadInv, applyOp, alarmFire]

/-- The payload/status invariant propagates along any operation sequence. -/
theorem runOps_payloadInv (s : Storage) (ops : List Op) (h : payloadInv s) :
    payloadInv (runOps s ops) := by
  induction ops generalizing s with
  | nil => exact h
  | cons o os ih => exact ih (applyOp s o) (payloadInv_step s o h)

/-- C9: in every state reachable by any sequence of store, poll, acknowledge
and timer-fire operations, the payload field is present in storage if and
only if the status is ready. -/
theorem C9_payload_iff_ready (s : Storage) (h : ReachableStorage s) :
    s.result.isSome = true ↔ s.status = some "ready" := by
  obtain ⟨ops, rfl⟩ := h
  exact runOps_payloadInv Storage.init ops (by simp [payloadInv, Storage.init])

/-- Witness for C9 on the state reached by one concrete store. -/
theorem C9_payload_iff_ready_witness :
    (runOps Storage.init [Op.opStore (JSON.str "x") 3 false]).result.isSome =
        true ↔
      (runOps Storage.init [Op.opStore (JSON.str "x") 3 false]).status =
        some "ready" :=
  C9_payload_iff_ready _ ⟨[Op.opStore (JSON.str "x") 3 false], rfl⟩

/-- C10: the response of `acknowledge` is independent of the record's prior
state — it is always exactly `200 "deleted"`, for every starting state, time
and alarm outcome, so the caller cannot tell from the response whether a
ready result was discarded, a tombstone refreshed, or nothing existed. -/
theorem C10_ack_response_uniform (s1 s2 : Storage) (t1 t2 : Nat)
    (af1 af2 : Bool) :
    (acknowledge t1 af1 s1).1 = Response.text 200 "deleted" ∧
    (acknowledge t1 af1 s1).1 = (acknowledge t2 af2 s2).1 :=
  ⟨rfl, rfl⟩
